import Mathlib

/-!
Shallow embedding of the Family-Travel-Plan geocoding pipeline (src/app.py):
the location-string normalizer inlined in create_map_with_route, the cached
and rate-limited geocoder (_geocode_cached / get_location_coordinates), and
the itinerary-to-map projector (create_map_with_route).

Strings are modelled as Lean String / List Char; machine floating point
coordinates are modelled as rationals; wall-clock instants are rationals.
-/

/-! ## Character classes (ASCII approximations of Python regex classes) -/

/-- Python regex whitespace class, ASCII part, as used by the cleanup regexes. -/
def isSpaceCh (c : Char) : Bool :=
  c = ' ' || c = '\t' || c = '\n' || c = '\r' || c = '\x0b' || c = '\x0c'

/-- ASCII decimal digit, the regex class d. -/
def isDigitCh (c : Char) : Bool :=
  '0' ≤ c && c ≤ '9'

/-- Regex word-character class w (letters, digits, underscore). -/
def isWordCh (c : Char) : Bool :=
  c.isAlpha || isDigitCh c || c = '_'

/-- Lower-casing a character, modelling Python str.lower per character. -/
def lowerCh (c : Char) : Char := c.toLower

/-! ## Step 1: remove parenthetical content.

Models re.sub applied with pattern "open-paren, any non-close chars, close-paren"
and empty replacement: scanning left to right, each open parenthesis that has
some later close parenthesis swallows everything up to the first close; an open
parenthesis with no later close is kept as an ordinary character. -/

/-- The suffix after the first close parenthesis, if any. -/
def dropClose : List Char → Option (List Char)
  | [] => none
  | c :: cs => if c = ')' then some cs else dropClose cs

/-- Fuelled scanner for parenthetical removal (fuel bounds the number of scan
steps; each step consumes at least one character, so fuel = length suffices). -/
def removeParensF : Nat → List Char → List Char
  | 0, l => l
  | _ + 1, [] => []
  | fuel + 1, c :: cs =>
    if c = '(' then
      match dropClose cs with
      | some rest => removeParensF fuel rest
      | none => c :: removeParensF fuel cs
    else c :: removeParensF fuel cs

/-- re.sub removing parenthetical substrings, from create_map_with_route. -/
def removeParens (l : List Char) : List Char :=
  removeParensF l.length l

/-! ## Step 2: strip a leading positional token.

Models re.sub with the anchored, case-insensitive pattern
"Inside|Near|At|In followed by one or more whitespace" and empty replacement:
at most one removal, at the very start, alternatives tried left to right. -/

/-- Case-insensitively consume a (lowercase) token at the head of the list,
returning the remainder. -/
def dropTokCI : List Char → List Char → Option (List Char)
  | [], rest => some rest
  | _ :: _, [] => none
  | t :: ts, c :: cs => if lowerCh c = t then dropTokCI ts cs else none

/-- One alternative of the anchored pattern: the token followed by at least one
whitespace character; on success the token and the whole (greedy) whitespace
run are dropped. -/
def tryTok (tok l : List Char) : Option (List Char) :=
  match dropTokCI tok l with
  | some (c :: rest) =>
    if isSpaceCh c then some ((c :: rest).dropWhile isSpaceCh) else none
  | _ => none

/-- The anchored leading-token strip, alternatives in the source's order. -/
def stripLead (l : List Char) : List Char :=
  match tryTok "inside".data l with
  | some r => r
  | none =>
    match tryTok "near".data l with
    | some r => r
    | none =>
      match tryTok "at".data l with
      | some r => r
      | none =>
        match tryTok "in".data l with
        | some r => r
        | none => l

/-! ## Step 3: rebuild "landmark, city, country" when there are 3+ parts. -/

/-- Python str.split on a comma (keeps empty parts; empty input gives one
empty part). -/
def splitComma : List Char → List (List Char)
  | [] => [[]]
  | c :: cs =>
    if c = ',' then [] :: splitComma cs
    else
      match splitComma cs with
      | p :: ps => (c :: p) :: ps
      | [] => [[c]]

/-- Python str.strip: drop whitespace from both ends. -/
def trimWs (l : List Char) : List Char :=
  ((l.dropWhile isSpaceCh).reverse.dropWhile isSpaceCh).reverse

/-- Does the second list start with the first one? -/
def startsWithL : List Char → List Char → Bool
  | [], _ => true
  | _ :: _, [] => false
  | a :: as, b :: bs => a = b && startsWithL as bs

/-- Python substring containment (needle in hay). -/
def containsSub (needle : List Char) : List Char → Bool
  | [] => startsWithL needle []
  | h :: t => startsWithL needle (h :: t) || containsSub needle t

/-- The fixed city allowlist from create_map_with_route. -/
def fixedCities : List String :=
  ["Barcelona", "Lisbon", "Athens", "Paris", "Rome", "Madrid", "Porto"]

/-- The loop condition choosing a city part: the destination hint occurs
case-insensitively in the part, or one of the fixed city names occurs
case-sensitively. -/
def cityMatch (dest : String) (part : List Char) : Bool :=
  containsSub (dest.data.map lowerCh) (part.map lowerCh)
    || fixedCities.any (fun cn => containsSub cn.data part)

/-- The source's for-loop with break: the first matching part, stripped. -/
def findCity (dest : String) : List (List Char) → Option (List Char)
  | [] => none
  | p :: ps => if cityMatch dest p then some (trimWs p) else findCity dest ps

/-- City selection including the Python falsy fallback: if the loop found no
part, or the found part stripped to the empty string, the second-to-last part
(stripped) is used. -/
def cityOf (dest : String) (parts : List (List Char)) : List Char :=
  match findCity dest parts with
  | some c => if c = [] then trimWs (parts.getD (parts.length - 2) []) else c
  | none => trimWs (parts.getD (parts.length - 2) [])

/-- Step 3 of the cleanup: with 3 or more comma-separated parts, rebuild the
string as "landmark, city, country"; otherwise pass through unchanged. -/
def rebuildParts (dest : String) (l : List Char) : List Char :=
  let parts := splitComma l
  if 3 ≤ parts.length then
    let landmark := trimWs (parts.headD [])
    let country := trimWs (parts.getLastD [])
    let city := cityOf dest parts
    landmark ++ ", ".data ++ city ++ ", ".data ++ country
  else l

/-! ## Step 4: remove standalone 5-digit tokens (postal codes).

Models re.sub with pattern "word boundary, exactly five digits, word boundary"
and empty replacement. The scanner carries the previous character to decide
the left word boundary; after a removal it carries the last removed digit,
matching the regex engine resuming right after the match on the original
string. -/

/-- Left word boundary before a digit: start of string or a non-word char. -/
def bdryBefore : Option Char → Bool
  | none => true
  | some p => !isWordCh p

/-- Right word boundary after a digit: end of string or a non-word char. -/
def bdryAfter : List Char → Bool
  | [] => true
  | c :: _ => !isWordCh c

/-- re.sub removing standalone 5-digit runs, from create_map_with_route. -/
def remPostal : Option Char → List Char → List Char
  | _, [] => []
  | prev, a :: b :: c :: d :: e :: rest =>
    if bdryBefore prev && isDigitCh a && isDigitCh b && isDigitCh c
        && isDigitCh d && isDigitCh e && bdryAfter rest then
      remPostal (some e) rest
    else a :: remPostal (some a) (b :: c :: d :: e :: rest)
  | _, a :: as => a :: remPostal (some a) as

/-! ## Step 5: collapse whitespace runs, strip, collapse double commas. -/

/-- re.sub replacing each maximal whitespace run by a single space. -/
def collapseWs : List Char → List Char
  | [] => []
  | c :: cs =>
    if isSpaceCh c then
      match cs with
      | [] => [' ']
      | d :: _ => if isSpaceCh d then collapseWs cs else ' ' :: collapseWs cs
    else c :: collapseWs cs

/-- Fuelled scanner for re.sub replacing "comma, whitespace run, comma" by a
single comma (the emitted comma is not rescanned, matching re.sub's
left-to-right non-overlapping replacement). -/
def collDCF : Nat → List Char → List Char
  | 0, l => l
  | _ + 1, [] => []
  | fuel + 1, c :: cs =>
    if c = ',' then
      match cs.dropWhile isSpaceCh with
      | ',' :: rest => ',' :: collDCF fuel rest
      | _ => c :: collDCF fuel cs
    else c :: collDCF fuel cs

/-- re.sub collapsing comma-whitespace-comma into a single comma. -/
def collDC (l : List Char) : List Char :=
  collDCF l.length l

/-! ## The normalizer: the inline cleanup of create_map_with_route. -/

/-- The location-string normalizer: the clean_location pipeline inlined in
create_map_with_route (parenthetical removal, leading-token strip, landmark /
city / country rebuild, postal-code removal, whitespace and double-comma
cleanup), as a pure function of the raw location and the destination hint. -/
def normalizeLoc (raw dest : String) : String :=
  let l1 := removeParens raw.data
  let l2 := stripLead l1
  let l3 := rebuildParts dest l2
  let l4 := remPostal none l3
  let l5 := trimWs (collapseWs l4)
  let l6 := collDC l5
  l6.asString

/-! ## Geocoding cache (_geocode_cached) and rate limiter
(get_location_coordinates).

Coordinates are rational pairs; instants are rationals (Python time.time()).
The external Nominatim lookup is an oracle returning found coordinates,
a miss, or a raised exception. -/

/-- A latitude/longitude pair. -/
abbrev Coord := ℚ × ℚ

/-- Outcome of one raw external geocoding lookup: a location, no location
(geocode returned None), or a raised exception. -/
inductive LookupOutcome where
  | found (c : Coord)
  | notFound
  | err (msg : String)
deriving DecidableEq

/-- The body of _geocode_cached around the raw lookup: a found location
yields its coordinates, a miss yields None, and the except-branch converts a
raised exception to None. -/
def toResult : LookupOutcome → Option Coord
  | .found c => some c
  | .notFound => none
  | .err _ => none

/-- One st.cache_data entry: the exact query string, the instant the value was
stored, and the stored value (which may itself be None). -/
structure CacheEntry where
  query : String
  storedAt : ℚ
  value : Option Coord
deriving DecidableEq

/-- Cache lookup with the one-hour (3600 time units) ttl of st.cache_data:
the first entry for the query that is still alive. -/
def cacheLookup (now : ℚ) (q : String) : List CacheEntry → Option (Option Coord)
  | [] => none
  | e :: es =>
    if e.query = q ∧ now - e.storedAt < 3600 then some e.value
    else cacheLookup now q es

/-- _geocode_cached under st.cache_data: on a hit return the cached value with
no network call; on a miss run the raw lookup (exceptions becoming None via
toResult), store the outcome keyed by the exact query string, and report one
network call. Result: (returned value, new cache, number of network calls). -/
def geocodeCached (raw : String → LookupOutcome) (now : ℚ) (q : String)
    (cache : List CacheEntry) : Option Coord × List CacheEntry × Nat :=
  match cacheLookup now q cache with
  | some v => (v, cache, 0)
  | none =>
    let r := toResult (raw q)
    (r, ⟨q, now, r⟩ :: cache, 1)

/-- The throttle of get_location_coordinates: the instant the call proceeds to
the cached geocode, given the shared last-attempt timestamp and the instant
the function was entered. If less than 1.5 time units have elapsed since the
last attempt the caller sleeps for the remaining delta. -/
def procStart (last arrival : ℚ) : ℚ :=
  if arrival - last < 3 / 2 then last + 3 / 2 else arrival

/-- One invocation of get_location_coordinates, as seen by the timing model:
its wall-clock arrival instant, the duration of the cached-geocode step, and
the query string. -/
structure GeoCall where
  arrival : ℚ
  netDur : ℚ
  query : String

/-- A sequence of get_location_coordinates invocations: each call first pays
the throttle (procStart), then runs the cached geocode at that instant, and
finally the shared timestamp is set to the instant the geocode step finished.
Returns, per call, the instant its geocode processing started and its result. -/
def runGeoCalls (raw : String → LookupOutcome) (last : ℚ)
    (cache : List CacheEntry) : List GeoCall → List (ℚ × Option Coord)
  | [] => []
  | c :: cs =>
    let s := procStart last c.arrival
    let out := geocodeCached raw s c.query cache
    (s, out.1) :: runGeoCalls raw (s + c.netDur) out.2.1 cs

/-- A cache all of whose entries hold the value the raw lookup would produce
for their query (true of every cache reachable from the empty one with a
fixed external world). -/
def Consistent (raw : String → LookupOutcome) (cache : List CacheEntry) : Prop :=
  ∀ e ∈ cache, e.value = toResult (raw e.query)

/-! ## Itinerary data model (the parsed JSON plan). -/

/-- One activity of the parsed plan; every field is an optional JSON string
(the source reads each with dict.get and a default). -/
structure Activity where
  name : Option String
  description : Option String
  duration : Option String
  location : Option String
  challenge : Option String
deriving DecidableEq

/-- One day of the parsed plan: an optional day number and an optional
activity list (the source guards both with dict.get / key tests). -/
structure Day where
  dayNum : Option Int
  activities : Option (List Activity)
deriving DecidableEq

/-- The parsed itinerary: the ordered day list under the top-level days key. -/
structure TravelPlan where
  days : List Day
deriving DecidableEq

/-- The fixed 13-entry marker color palette of create_map_with_route. -/
def colorsList : List String :=
  ["red", "blue", "green", "purple", "orange", "darkred", "lightred",
    "beige", "darkblue", "darkgreen", "cadetblue", "darkpurple", "pink"]

/-- One successfully geocoded map marker: coordinates, day number, the
enumerate index of its day, its color, and the popup metadata (description
truncated to 100 characters, challenge truncated to 80). -/
structure Marker where
  coords : Coord
  dayNum : Int
  dayIdx : Nat
  color : String
  name : String
  duration : String
  descr : String
  challenge : Option String
deriving DecidableEq

/-! ## Geocoding orchestrator: one activity of the projector loop.

The cached geocoder, by the cache-consistency results above, returns a value
depending only on the query string; the projector is therefore parameterized
by that pure query-to-coordinates function. -/

/-- Python string slicing s[:n]: the first n characters. -/
def takeStr (s : String) (n : Nat) : String :=
  (s.data.take n).asString

/-- The raw location string of an activity: its location field, else its name
field, else the empty string. -/
def locationName (a : Activity) : String :=
  match a.location with
  | some s => s
  | none => a.name.getD ""

/-- Per-activity geocoding with one retry: geocode the normalized location;
if that misses, geocode the alternate "name, destination" query once.
Returns the resulting coordinates (if any) and the list of queries attempted,
in order. -/
def resolveCoords (geo : String → Option Coord) (dest : String) (a : Activity) :
    Option Coord × List String :=
  let fullLoc := normalizeLoc (locationName a) dest
  match geo fullLoc with
  | some c => (some c, [fullLoc])
  | none =>
    let altLoc := a.name.getD "" ++ ", " ++ dest
    (geo altLoc, [fullLoc, altLoc])

/-- Processing of one activity in the projector loop: on geocoding success a
marker record (with the popup defaults and truncations of the source), on
failure the original untruncated location string. -/
def processActivity (geo : String → Option Coord) (dest : String) (dayNum : Int)
    (dayIdx : Nat) (color : String) (a : Activity) : Marker ⊕ String :=
  match (resolveCoords geo dest a).1 with
  | some c =>
    .inl { coords := c, dayNum := dayNum, dayIdx := dayIdx, color := color,
           name := a.name.getD "Activity", duration := a.duration.getD "N/A",
           descr := takeStr (a.description.getD "") 100,
           challenge := a.challenge.map (fun s => takeStr s 80) }
  | none => .inr (locationName a)

/-! ## Itinerary-to-map projector (create_map_with_route). -/

/-- The inner activity loop of one day: accumulates, in order, the added
markers, the all_locations coordinate list, and the failed location strings. -/
def processActs (geo : String → Option Coord) (dest : String) (dayNum : Int)
    (dayIdx : Nat) (color : String) :
    List Activity → List Marker × List Coord × List String
  | [] => ([], [], [])
  | a :: as =>
    let rest := processActs geo dest dayNum dayIdx color as
    match processActivity geo dest dayNum dayIdx color a with
    | .inl m => (m :: rest.1, m.coords :: rest.2.1, rest.2.2)
    | .inr f => (rest.1, rest.2.1, f :: rest.2.2)

/-- The outer day loop: each day is processed with color palette index
(enumerate index mod palette size) and day number defaulting to the
enumerate index plus one; days without an activities key contribute nothing. -/
def processDays (geo : String → Option Coord) (dest : String) :
    List Day → Nat → List Marker × List Coord × List String
  | [], _ => ([], [], [])
  | d :: ds, i =>
    let color := colorsList.getD (i % colorsList.length) ""
    let dayNum := d.dayNum.getD (Int.ofNat i + 1)
    let here :=
      match d.activities with
      | some acts => processActs geo dest dayNum i color acts
      | none => ([], [], [])
    let rest := processDays geo dest ds (i + 1)
    (here.1 ++ rest.1, here.2.1 ++ rest.2.1, here.2.2 ++ rest.2.2)

/-- Total activity count of the plan, as summed for the progress bar. -/
def totalActivitiesOf (days : List Day) : Nat :=
  (days.map (fun d => (d.activities.getD []).length)).sum

/-- The anchor lookup on the first activity, when the plan has a first day
with a first activity whose location key is present and non-empty (Python
truthiness of the raw field value). -/
def firstLocationOf (plan : TravelPlan) : Option String :=
  match plan.days with
  | [] => none
  | d :: _ =>
    match d.activities with
    | none => none
    | some [] => none
    | some (a :: _) =>
      match a.location with
      | none => none
      | some s => if s = "" then none else some s

/-- Anchor coordinate resolution: geocode the raw first-activity location if
available; if that is missing or fails, geocode the destination name. -/
def anchorCoords (geo : String → Option Coord) (dest : String)
    (plan : TravelPlan) : Option Coord :=
  let viaFirst :=
    match firstLocationOf plan with
    | some s => geo s
    | none => none
  match viaFirst with
  | some c => some c
  | none => geo dest

/-- The observable outcome of create_map_with_route: the map center, the
marker list, the all_locations list handed to fit_bounds, whether fit_bounds
was applied, and the returned counters and failure list. -/
structure MapOutput where
  center : Coord
  markers : List Marker
  allLocations : List Coord
  boundsFitApplied : Bool
  markersAdded : Nat
  totalCount : Nat
  failedLocations : List String
deriving DecidableEq

/-- create_map_with_route: resolve the anchor (returning no map exactly when
that fails), run the day loop, fit bounds to all_locations when non-empty,
and return the marker data and counters. -/
def createMapWithRoute (geo : String → Option Coord) (dest : String)
    (plan : TravelPlan) : Option MapOutput :=
  match anchorCoords geo dest plan with
  | none => none
  | some center =>
    let res := processDays geo dest plan.days 0
    some { center := center, markers := res.1, allLocations := res.2.1,
           boundsFitApplied := !res.2.1.isEmpty, markersAdded := res.1.length,
           totalCount := totalActivitiesOf plan.days,
           failedLocations := res.2.2 }

/-- Membership of a point in the axis-aligned bounding region spanned by a
coordinate list (what folium fit_bounds frames): some listed point is at or
below it and some at or above it, on each axis. -/
def inBBoxB (p : Coord) (ps : List Coord) : Bool :=
  ps.any (fun q => decide (q.1 ≤ p.1)) && ps.any (fun q => decide (p.1 ≤ q.1))
    && ps.any (fun q => decide (q.2 ≤ p.2)) && ps.any (fun q => decide (p.2 ≤ q.2))

/-! ## Helper lemmas. -/

/-- A cache hit on a consistent cache returns what the raw lookup would. -/
lemma cacheLookup_consistent (raw : String → LookupOutcome) :
    ∀ (cache : List CacheEntry) (now : ℚ) (q : String) (v : Option Coord),
      cacheLookup now q cache = some v → Consistent raw cache →
      v = toResult (raw q) := by
  intro cache
  induction cache with
  | nil => intro now q v h _; simp [cacheLookup] at h
  | cons e es ih =>
    intro now q v h hc
    by_cases hq : e.query = q ∧ now - e.storedAt < 3600
    · rw [cacheLookup, if_pos hq] at h
      injection h with h
      rw [← h, hc e (by simp), hq.1]
    · rw [cacheLookup, if_neg hq] at h
      exact ih now q v h (fun x hx => hc x (by simp [hx]))

/-- The throttle never lets a call proceed earlier than 1.5 units after the
shared timestamp. -/
lemma procStart_lb (last t : ℚ) : last + 3 / 2 ≤ procStart last t := by
  by_cases h : t - last < 3 / 2
  · simp [procStart, h]
  · simp only [procStart, if_neg h]
    linarith [not_lt.mp h]

/-- Consecutive geocode-processing starts are at least 1.5 units apart,
provided each cached-geocode step takes nonnegative time. -/
lemma runGeoCalls_chain :
    ∀ (calls : List GeoCall) (raw : String → LookupOutcome) (last : ℚ)
      (cache : List CacheEntry), (∀ c ∈ calls, 0 ≤ c.netDur) →
      List.Chain' (fun a b => a + 3 / 2 ≤ b)
        ((runGeoCalls raw last cache calls).map Prod.fst) := by
  intro calls
  induction calls with
  | nil => intro raw last cache _; simp [runGeoCalls]
  | cons c cs ih =>
    intro raw last cache hd
    simp only [runGeoCalls, List.map_cons]
    rw [List.chain'_cons']
    refine ⟨?_, ih raw _ _ (fun x hx => hd x (by simp [hx]))⟩
    intro y hy
    cases cs with
    | nil => simp [runGeoCalls] at hy
    | cons c2 cs2 =>
      simp only [runGeoCalls, List.map_cons, List.head?_cons, Option.mem_def,
        Option.some.injEq] at hy
      have h1 := procStart_lb (procStart last c.arrival + c.netDur) c2.arrival
      have h2 : 0 ≤ c.netDur := hd c (by simp)
      rw [← hy]
      linarith

/-- The geocode-processing start instants do not depend on the cache contents. -/
lemma runGeoCalls_starts_cache :
    ∀ (calls : List GeoCall) (raw : String → LookupOutcome) (last : ℚ)
      (cache1 cache2 : List CacheEntry),
      (runGeoCalls raw last cache1 calls).map Prod.fst
        = (runGeoCalls raw last cache2 calls).map Prod.fst := by
  intro calls
  induction calls with
  | nil => intro raw last c1 c2; simp [runGeoCalls]
  | cons c cs ih =>
    intro raw last c1 c2
    simp only [runGeoCalls, List.map_cons, List.cons.injEq]
    exact ⟨trivial, ih raw _ _ _⟩

/-- A marker produced for one activity carries the day index and color the
loop supplied. -/
lemma processActivity_inl (geo : String → Option Coord) (dest : String)
    (dayNum : Int) (dayIdx : Nat) (color : String) (a : Activity) (m : Marker)
    (h : processActivity geo dest dayNum dayIdx color a = .inl m) :
    m.dayIdx = dayIdx ∧ m.color = color := by
  unfold processActivity at h
  cases hr : (resolveCoords geo dest a).1 with
  | some c => rw [hr] at h; injection h with h; subst h; exact ⟨rfl, rfl⟩
  | none => rw [hr] at h; cases h

/-- Per day, marker count plus failure count equals the activity count. -/
lemma processActs_count (geo : String → Option Coord) (dest : String)
    (dayNum : Int) (dayIdx : Nat) (color : String) :
    ∀ acts : List Activity,
      (processActs geo dest dayNum dayIdx color acts).1.length
        + (processActs geo dest dayNum dayIdx color acts).2.2.length
        = acts.length := by
  intro acts
  induction acts with
  | nil => simp [processActs]
  | cons a as ih =>
    simp only [processActs]
    cases h : processActivity geo dest dayNum dayIdx color a <;>
      simp [h, List.length_cons] <;> omega

/-- Per day, every produced marker has the loop's day index and color. -/
lemma processActs_colors (geo : String → Option Coord) (dest : String)
    (dayNum : Int) (dayIdx : Nat) (color : String) :
    ∀ (acts : List Activity) (m : Marker),
      m ∈ (processActs geo dest dayNum dayIdx color acts).1 →
      m.dayIdx = dayIdx ∧ m.color = color := by
  intro acts
  induction acts with
  | nil => simp [processActs]
  | cons a as ih =>
    intro m hm
    simp only [processActs] at hm
    cases h : processActivity geo dest dayNum dayIdx color a with
    | inl m0 =>
      rw [h] at hm
      simp only [List.mem_cons] at hm
      cases hm with
      | inl he =>
        subst he
        exact processActivity_inl geo dest dayNum dayIdx color a _ h
      | inr ht => exact ih m ht
    | inr f => rw [h] at hm; exact ih m hm

/-- Per day, the all_locations segment is exactly the marker coordinates. -/
lemma processActs_locs (geo : String → Option Coord) (dest : String)
    (dayNum : Int) (dayIdx : Nat) (color : String) :
    ∀ acts : List Activity,
      (processActs geo dest dayNum dayIdx color acts).2.1
        = (processActs geo dest dayNum dayIdx color acts).1.map
            (fun m => m.coords) := by
  intro acts
  induction acts with
  | nil => simp [processActs]
  | cons a as ih =>
    simp only [processActs]
    cases h : processActivity geo dest dayNum dayIdx color a <;> simp [h, ih]

/-- Marker count plus failure count equals the total activity count. -/
lemma processDays_count (geo : String → Option Coord) (dest : String) :
    ∀ (days : List Day) (i : Nat),
      (processDays geo dest days i).1.length
        + (processDays geo dest days i).2.2.length
        = totalActivitiesOf days := by
  intro days
  induction days with
  | nil => intro i; simp [processDays, totalActivitiesOf]
  | cons d ds ih =>
    intro i
    have hds := ih (i + 1)
    simp only [processDays, totalActivitiesOf, List.map_cons, List.sum_cons]
    cases h : d.activities with
    | none =>
      simp only [h, Option.getD_none, List.length_nil, List.nil_append]
      simp only [totalActivitiesOf] at hds
      omega
    | some acts =>
      have hacts := processActs_count geo dest (d.dayNum.getD (Int.ofNat i + 1))
        i (colorsList.getD (i % colorsList.length) "") acts
      simp only [h, Option.getD_some, List.length_append]
      simp only [totalActivitiesOf] at hds
      omega

/-- Every marker of the day loop is colored by its day index modulo the
palette size. -/
lemma processDays_colors (geo : String → Option Coord) (dest : String) :
    ∀ (days : List Day) (i : Nat) (m : Marker),
      m ∈ (processDays geo dest days i).1 →
      m.color = colorsList.getD (m.dayIdx % colorsList.length) "" := by
  intro days
  induction days with
  | nil => simp [processDays]
  | cons d ds ih =>
    intro i m hm
    simp only [processDays, List.mem_append] at hm
    cases hm with
    | inl hh =>
      cases h : d.activities with
      | none => rw [h] at hh; simp at hh
      | some acts =>
        rw [h] at hh
        have := processActs_colors geo dest (d.dayNum.getD (Int.ofNat i + 1)) i
          (colorsList.getD (i % colorsList.length) "") acts m hh
        rw [this.2, this.1]
    | inr ht => exact ih (i + 1) m ht

/-- The all_locations list of the day loop is exactly the marker coordinates. -/
lemma processDays_locs (geo : String → Option Coord) (dest : String) :
    ∀ (days : List Day) (i : Nat),
      (processDays geo dest days i).2.1
        = (processDays geo dest days i).1.map (fun m => m.coords) := by
  intro days
  induction days with
  | nil => intro i; simp [processDays]
  | cons d ds ih =>
    intro i
    simp only [processDays, List.map_append]
    cases h : d.activities with
    | none => simp [ih]
    | some acts => simp [processActs_locs, ih]

/-- The first-match loop of the city scan agrees with List.find?. -/
lemma findCity_eq (dest : String) :
    ∀ parts : List (List Char),
      findCity dest parts = (parts.find? (cityMatch dest)).map trimWs := by
  intro parts
  induction parts with
  | nil => simp [findCity]
  | cons p ps ih =>
    by_cases h : cityMatch dest p
    · simp [findCity, h, List.find?_cons_of_pos _ h]
    · simp only [findCity, if_neg h, ih, List.find?_cons_of_neg _ h]

/-! ## Claim theorems. -/

/-- Claim C1 (counterexample): on the spec's Aquatis input the pipeline does
not return "Aquatis, Lausanne, Switzerland" — the Swiss postal code 1010 has
four digits and the postal-code rule removes only standalone five-digit
tokens, so the code survives inside the chosen city part. -/
theorem aquatis_counterexample :
    normalizeLoc
        "Inside Aquatis (Lausanne Aquarium), Route de Berne 144, 1010 Lausanne, Switzerland"
        "Lausanne"
      ≠ "Aquatis, Lausanne, Switzerland" := by decide

/-- Claim C1 (amended): for the Aquatis input with hint "Lausanne" the
normalization pipeline returns exactly "Aquatis, 1010 Lausanne, Switzerland"
(parenthetical, leading token and street line removed; the four-digit postal
code kept). -/
theorem aquatis_normalization :
    normalizeLoc
        "Inside Aquatis (Lausanne Aquarium), Route de Berne 144, 1010 Lausanne, Switzerland"
        "Lausanne"
      = "Aquatis, 1010 Lausanne, Switzerland" := by decide

/-- Claim C4 (counterexample): the normalizer is not idempotent — on
"At At X" the first pass strips one leading "At" and the second pass strips
another, so applying it twice changes the result again. -/
theorem normalize_not_idempotent :
    normalizeLoc (normalizeLoc "At At X" "Barcelona") "Barcelona"
      ≠ normalizeLoc "At At X" "Barcelona" := by decide

/-- Claim C4 (amended): re-applying the normalizer to an already-stabilized
3-part output leaves it unchanged, as on the spec's two example inputs. -/
theorem normalize_idempotent_on_stabilized :
    (normalizeLoc
        (normalizeLoc "Sagrada Familia, Carrer de Mallorca 401, Barcelona, Spain"
          "Barcelona") "Barcelona"
      = normalizeLoc "Sagrada Familia, Carrer de Mallorca 401, Barcelona, Spain"
          "Barcelona")
    ∧ (normalizeLoc
        (normalizeLoc
          "Inside Aquatis (Lausanne Aquarium), Route de Berne 144, 1010 Lausanne, Switzerland"
          "Lausanne") "Lausanne"
      = normalizeLoc
          "Inside Aquatis (Lausanne Aquarium), Route de Berne 144, 1010 Lausanne, Switzerland"
          "Lausanne") :=
  ⟨by decide, by decide⟩

/-- The city selection as claim C10 words it: the first comma part matching
the hint or a fixed city name (trimmed), and the second-to-last part only
when no part matches. For comparison with the source's cityOf. -/
def cityOfClaim (dest : String) (parts : List (List Char)) : List Char :=
  match parts.find? (cityMatch dest) with
  | some p => trimWs p
  | none => trimWs (parts.getD (parts.length - 2) [])

/-- Claim C10 (counterexample): with hint " " and input "  ,Rome,Italy" the
first part matches the hint yet trims to the empty string, so the Python
falsy test falls back to the second-to-last part "Rome": the city is not the
first matching part, and the output is not the duplicated landmark. -/
theorem city_scan_counterexample :
    normalizeLoc "  ,Rome,Italy" " " = ", Rome, Italy"
    ∧ (splitComma "  ,Rome,Italy".data).find? (cityMatch " ") = some "  ".data
    ∧ trimWs "  ".data = []
    ∧ cityOf " " (splitComma "  ,Rome,Italy".data)
        ≠ cityOfClaim " " (splitComma "  ,Rome,Italy".data) :=
  ⟨by decide, by decide, by decide, by decide⟩

/-- The city selection as amended: the trim of the first matching part when
that trim is non-empty; the trim of the second-to-last part when no part
matches or the first matching part trims to the empty string. -/
def cityOfAmended (dest : String) (parts : List (List Char)) : List Char :=
  match (parts.find? (cityMatch dest)).map trimWs with
  | some c => if c = [] then trimWs (parts.getD (parts.length - 2) []) else c
  | none => trimWs (parts.getD (parts.length - 2) [])

/-- Claim C10 (amended): the source's scan-with-break equals the amended
first-match characterization for every hint and part list; and when the
landmark part itself contains the hint (and trims non-empty) it is chosen as
the city, duplicating the landmark, as on a concrete Lausanne input. -/
theorem city_scan_characterization :
    (∀ (dest : String) (parts : List (List Char)),
      cityOf dest parts = cityOfAmended dest parts)
    ∧ normalizeLoc "Lausanne Palace, Rue du Grand-Chene 7, Lausanne, Switzerland"
        "Lausanne"
      = "Lausanne Palace, Lausanne Palace, Switzerland" := by
  constructor
  · intro dest parts
    simp only [cityOf, cityOfAmended, findCity_eq]
  · decide

/-- Claim C2: across any sequence of get_location_coordinates invocations,
the instants at which consecutive calls proceed past the throttle into the
cached geocode are at least 1.5 time units apart (each geocode step taking
nonnegative time), and those instants are applied before and independently of
the cache lookup: they are the same for every cache state. -/
theorem rate_limiter_spacing (raw : String → LookupOutcome) (last : ℚ)
    (cache : List CacheEntry) (calls : List GeoCall)
    (hd : ∀ c ∈ calls, 0 ≤ c.netDur) :
    List.Chain' (fun a b => a + 3 / 2 ≤ b)
        ((runGeoCalls raw last cache calls).map Prod.fst)
    ∧ ∀ cache2 : List CacheEntry,
        (runGeoCalls raw last cache calls).map Prod.fst
          = (runGeoCalls raw last cache2 calls).map Prod.fst :=
  ⟨runGeoCalls_chain calls raw last cache hd,
   fun cache2 => runGeoCalls_starts_cache calls raw last cache cache2⟩

def rawW2 : String → LookupOutcome := fun _ => .notFound

def callsW2 : List GeoCall := [⟨0, 0, "Louvre"⟩, ⟨0, 0, "Louvre"⟩]

/-- Witness for claim C2 at a concrete two-call sequence. -/
theorem rate_limiter_spacing_witness :
    (∀ c ∈ callsW2, 0 ≤ c.netDur)
    ∧ (List.Chain' (fun a b => a + 3 / 2 ≤ b)
          ((runGeoCalls rawW2 0 [] callsW2).map Prod.fst)
        ∧ ∀ cache2 : List CacheEntry,
            (runGeoCalls rawW2 0 [] callsW2).map Prod.fst
              = (runGeoCalls rawW2 0 cache2 callsW2).map Prod.fst) := by
  refine ⟨by decide, rate_limiter_spacing rawW2 0 [] callsW2 (by decide)⟩

/-- Claim C3: starting from a cache whose entries agree with the (fixed)
external world, two geocode calls for the identical query within one hour
perform at most one external lookup between them and return the same value;
and when the first call is a miss whose lookup finds nothing, the NotFound
outcome is cached and the second call returns it with no network call. -/
theorem cache_single_lookup (raw : String → LookupOutcome) (q : String)
    (cache : List CacheEntry) (t1 t2 : ℚ)
    (hc : Consistent raw cache) (ht : t2 - t1 < 3600) :
    (geocodeCached raw t2 q (geocodeCached raw t1 q cache).2.1).1
      = (geocodeCached raw t1 q cache).1
    ∧ (geocodeCached raw t1 q cache).2.2
        + (geocodeCached raw t2 q (geocodeCached raw t1 q cache).2.1).2.2 ≤ 1
    ∧ (cacheLookup t1 q cache = none → raw q = .notFound →
        (geocodeCached raw t1 q cache).1 = none
        ∧ (geocodeCached raw t2 q (geocodeCached raw t1 q cache).2.1).1 = none
        ∧ (geocodeCached raw t2 q (geocodeCached raw t1 q cache).2.1).2.2 = 0) := by
  cases h1 : cacheLookup t1 q cache with
  | none =>
    have hsecond : cacheLookup t2 q (⟨q, t1, toResult (raw q)⟩ :: cache)
        = some (toResult (raw q)) := by
      simp [cacheLookup, ht]
    refine ⟨?_, ?_, ?_⟩
    · simp [geocodeCached, h1, hsecond]
    · simp [geocodeCached, h1, hsecond]
    · intro _ hnf
      have hr : toResult (raw q) = none := by rw [hnf]; rfl
      rw [hr] at hsecond
      simp [geocodeCached, h1, hr, hsecond]
  | some v =>
    have hv : v = toResult (raw q) := cacheLookup_consistent raw cache t1 q v h1 hc
    cases h2 : cacheLookup t2 q cache with
    | none =>
      refine ⟨?_, ?_, ?_⟩
      · simp [geocodeCached, h1, h2, hv]
      · simp [geocodeCached, h1, h2]
      · intro habs
        exact absurd habs (by simp [h1])
    | some w =>
      have hw : w = toResult (raw q) := cacheLookup_consistent raw cache t2 q w h2 hc
      refine ⟨?_, ?_, ?_⟩
      · simp [geocodeCached, h1, h2, hv, hw]
      · simp [geocodeCached, h1, h2]
      · intro habs
        exact absurd habs (by simp [h1])

def rawW3 : String → LookupOutcome := fun q =>
  if q = "Eiffel Tower, Paris, France" then .found (48, 2) else .notFound

/-- Witness for claim C3 at a concrete query, empty cache, calls at instants
0 and 10. -/
theorem cache_single_lookup_witness :
    (Consistent rawW3 [] ∧ (10 : ℚ) - 0 < 3600)
    ∧ ((geocodeCached rawW3 10 "Eiffel Tower, Paris, France"
          (geocodeCached rawW3 0 "Eiffel Tower, Paris, France" []).2.1).1
        = (geocodeCached rawW3 0 "Eiffel Tower, Paris, France" []).1
      ∧ (geocodeCached rawW3 0 "Eiffel Tower, Paris, France" []).2.2
          + (geocodeCached rawW3 10 "Eiffel Tower, Paris, France"
              (geocodeCached rawW3 0 "Eiffel Tower, Paris, France" []).2.1).2.2 ≤ 1
      ∧ (cacheLookup 0 "Eiffel Tower, Paris, France" [] = none →
          rawW3 "Eiffel Tower, Paris, France" = .notFound →
          (geocodeCached rawW3 0 "Eiffel Tower, Paris, France" []).1 = none
          ∧ (geocodeCached rawW3 10 "Eiffel Tower, Paris, France"
              (geocodeCached rawW3 0 "Eiffel Tower, Paris, France" []).2.1).1 = none
          ∧ (geocodeCached rawW3 10 "Eiffel Tower, Paris, France"
              (geocodeCached rawW3 0 "Eiffel Tower, Paris, France" []).2.1).2.2 = 0)) :=
  ⟨⟨fun e he => absurd he (List.not_mem_nil e), by norm_num⟩,
   cache_single_lookup rawW3 "Eiffel Tower, Paris, France" [] 0 10
     (fun e he => absurd he (List.not_mem_nil e)) (by norm_num)⟩

/-- Claim C8: when the query misses the cache and the external lookup raises,
the cached geocode returns NotFound (None) rather than propagating the
exception, and stores the NotFound outcome keyed by the exact query string
as one network call. -/
theorem exception_to_notfound (raw : String → LookupOutcome) (now : ℚ)
    (q : String) (cache : List CacheEntry) (msg : String)
    (hmiss : cacheLookup now q cache = none) (herr : raw q = .err msg) :
    geocodeCached raw now q cache = (none, ⟨q, now, none⟩ :: cache, 1) := by
  simp [geocodeCached, hmiss, herr, toResult]

def rawW8 : String → LookupOutcome := fun _ => .err "timeout"

/-- Witness for claim C8 at a concrete raising lookup and empty cache. -/
theorem exception_to_notfound_witness :
    (cacheLookup 0 "Louvre, Paris, France" [] = none
      ∧ rawW8 "Louvre, Paris, France" = .err "timeout")
    ∧ geocodeCached rawW8 0 "Louvre, Paris, France" []
        = (none, [⟨"Louvre, Paris, France", 0, none⟩], 1) :=
  ⟨⟨rfl, rfl⟩,
   exception_to_notfound rawW8 0 "Louvre, Paris, France" [] "timeout" rfl rfl⟩

/-- A point of a coordinate list lies in the bounding region the list spans. -/
lemma inBBoxB_self (p : Coord) (ps : List Coord) (hp : p ∈ ps) :
    inBBoxB p ps = true := by
  simp only [inBBoxB, Bool.and_eq_true, List.any_eq_true, decide_eq_true_eq]
  exact ⟨⟨⟨⟨p, hp, le_refl _⟩, ⟨p, hp, le_refl _⟩⟩, ⟨p, hp, le_refl _⟩⟩,
    ⟨p, hp, le_refl _⟩⟩

/-- Claim C5: whenever the projector produces a map, the number of markers
added plus the number of failed locations equals the total activity count,
the palette has 13 entries, and every marker is colored with the palette
entry at its day index modulo 13. -/
theorem projector_counts_and_colors (geo : String → Option Coord)
    (dest : String) (plan : TravelPlan) (out : MapOutput)
    (h : createMapWithRoute geo dest plan = some out) :
    out.markersAdded + out.failedLocations.length = out.totalCount
    ∧ colorsList.length = 13
    ∧ ∀ m ∈ out.markers, m.color = colorsList.getD (m.dayIdx % 13) "" := by
  cases ha : anchorCoords geo dest plan with
  | none => simp [createMapWithRoute, ha] at h
  | some center =>
    simp only [createMapWithRoute, ha, Option.some.injEq] at h
    subst h
    refine ⟨processDays_count geo dest plan.days 0, rfl, ?_⟩
    intro m hm
    have hc := processDays_colors geo dest plan.days 0 m hm
    have hlen : colorsList.length = 13 := rfl
    rw [hlen] at hc
    exact hc

def geoW5 : String → Option Coord := fun _ => some (1, 1)

def actW5 : Activity := ⟨some "N", none, none, some "L, C, K", none⟩

def planW5 : TravelPlan := ⟨[⟨some 1, some [actW5]⟩]⟩

def outW5 : MapOutput :=
  ⟨(1, 1), [⟨(1, 1), 1, 0, "red", "N", "N/A", "", none⟩], [(1, 1)], true, 1, 1, []⟩

/-- Witness for claim C5 at a one-day, one-activity plan whose activity
geocodes successfully. -/
theorem projector_counts_witness :
    createMapWithRoute geoW5 "C" planW5 = some outW5
    ∧ (outW5.markersAdded + outW5.failedLocations.length = outW5.totalCount
      ∧ colorsList.length = 13
      ∧ ∀ m ∈ outW5.markers, m.color = colorsList.getD (m.dayIdx % 13) "") :=
  ⟨by decide, projector_counts_and_colors geoW5 "C" planW5 outW5 (by decide)⟩

/-- Claim C6: when the primary normalized query misses and the alternate
"name, destination" query succeeds, the per-activity resolution returns the
alternate's coordinates, attempts the alternate exactly once, and the
activity produces a marker (so it is not appended to the failure list). -/
theorem retry_alternate (geo : String → Option Coord) (dest : String)
    (dayNum : Int) (dayIdx : Nat) (color : String) (a : Activity) (c : Coord)
    (h1 : geo (normalizeLoc (locationName a) dest) = none)
    (h2 : geo (a.name.getD "" ++ ", " ++ dest) = some c) :
    (resolveCoords geo dest a).1 = some c
    ∧ (resolveCoords geo dest a).2
        = [normalizeLoc (locationName a) dest, a.name.getD "" ++ ", " ++ dest]
    ∧ (resolveCoords geo dest a).2.count (a.name.getD "" ++ ", " ++ dest) = 1
    ∧ processActivity geo dest dayNum dayIdx color a
        = .inl { coords := c, dayNum := dayNum, dayIdx := dayIdx, color := color,
                 name := a.name.getD "Activity",
                 duration := a.duration.getD "N/A",
                 descr := takeStr (a.description.getD "") 100,
                 challenge := a.challenge.map (fun s => takeStr s 80) } := by
  have hne : normalizeLoc (locationName a) dest ≠ a.name.getD "" ++ ", " ++ dest := by
    intro he
    rw [he, h2] at h1
    cases h1
  have hres : resolveCoords geo dest a
      = (some c,
         [normalizeLoc (locationName a) dest, a.name.getD "" ++ ", " ++ dest]) := by
    simp [resolveCoords, h1, h2]
  refine ⟨by rw [hres], by rw [hres], ?_, ?_⟩
  · rw [hres]
    simp [List.count_cons, List.count_nil, hne]
  · simp [processActivity, hres]

def geoW6 : String → Option Coord := fun q =>
  if q = "N, D" then some (1, 2) else none

def actW6 : Activity := ⟨some "N", none, none, some "X, Y, Z, W", none⟩

/-- Witness for claim C6 at a concrete activity whose normalized location
misses while the alternate query succeeds. -/
theorem retry_alternate_witness :
    (geoW6 (normalizeLoc (locationName actW6) "D") = none
      ∧ geoW6 (actW6.name.getD "" ++ ", " ++ "D") = some (1, 2))
    ∧ ((resolveCoords geoW6 "D" actW6).1 = some (1, 2)
      ∧ (resolveCoords geoW6 "D" actW6).2
          = [normalizeLoc (locationName actW6) "D",
             actW6.name.getD "" ++ ", " ++ "D"]
      ∧ (resolveCoords geoW6 "D" actW6).2.count
          (actW6.name.getD "" ++ ", " ++ "D") = 1
      ∧ processActivity geoW6 "D" 1 0 "red" actW6
          = .inl { coords := (1, 2), dayNum := 1, dayIdx := 0, color := "red",
                   name := actW6.name.getD "Activity",
                   duration := actW6.duration.getD "N/A",
                   descr := takeStr (actW6.description.getD "") 100,
                   challenge := actW6.challenge.map (fun s => takeStr s 80) }) :=
  ⟨⟨by decide, by decide⟩,
   retry_alternate geoW6 "D" 1 0 "red" actW6 (1, 2) (by decide) (by decide)⟩

/-- Claim C7: the projector produces no map exactly when both anchor lookups
fail — the raw first-activity location lookup (vacuously failing when the
itinerary has no first activity location) and the destination-name lookup.
Per-activity geocoding misses play no part in this condition. -/
theorem anchor_hard_failure (geo : String → Option Coord) (dest : String)
    (plan : TravelPlan) :
    createMapWithRoute geo dest plan = none ↔
      (firstLocationOf plan).bind geo = none ∧ geo dest = none := by
  cases hf : firstLocationOf plan with
  | none =>
    cases hg : geo dest <;>
      simp [createMapWithRoute, anchorCoords, hf, hg]
  | some s =>
    cases hs : geo s with
    | none =>
      cases hg : geo dest <;>
        simp [createMapWithRoute, anchorCoords, hf, hs, hg]
    | some c => simp [createMapWithRoute, anchorCoords, hf, hs]

def geoC9 : String → Option Coord := fun q =>
  if q = "X, street 5, Y, Z" then some (0, 0)
  else if q = "X, Y, Z" then some (10, 10) else none

def actC9 : Activity := ⟨some "A", none, none, some "X, street 5, Y, Z", none⟩

def planC9 : TravelPlan := ⟨[⟨some 1, some [actC9]⟩]⟩

/-- Claim C9 (counterexample): the anchor coordinate is not part of the
bounds: here the raw first-activity location anchors the map at (0, 0) while
the activity's normalized query geocodes to (10, 10), so all_locations is
[(10, 10)] and the anchor lies outside the bounding region it spans. -/
theorem bounds_exclude_anchor :
    (createMapWithRoute geoC9 "D" planC9).map
        (fun o => (o.center, o.allLocations, inBBoxB o.center o.allLocations))
      = some ((0, 0), [(10, 10)], false) := by decide

/-- Claim C9 (amended): the bounding region covers every successfully
geocoded activity coordinate (all_locations is exactly the marker
coordinates) but not necessarily the anchor; the bounds fit is applied
exactly when some marker succeeded, and the map center is the anchor. -/
theorem bounds_cover_markers (geo : String → Option Coord) (dest : String)
    (plan : TravelPlan) (out : MapOutput)
    (h : createMapWithRoute geo dest plan = some out) :
    out.allLocations = out.markers.map (fun m => m.coords)
    ∧ out.allLocations.all (fun p => inBBoxB p out.allLocations) = true
    ∧ (out.boundsFitApplied = false ↔ out.markers = [])
    ∧ anchorCoords geo dest plan = some out.center := by
  cases ha : anchorCoords geo dest plan with
  | none => simp [createMapWithRoute, ha] at h
  | some center =>
    simp only [createMapWithRoute, ha, Option.some.injEq] at h
    subst h
    refine ⟨processDays_locs geo dest plan.days 0, ?_, ?_, rfl⟩
    · rw [List.all_eq_true]
      intro p hp
      exact inBBoxB_self p _ hp
    · rw [processDays_locs geo dest plan.days 0]
      simp [List.isEmpty_iff]

def outC9 : MapOutput :=
  ⟨(0, 0), [⟨(10, 10), 1, 0, "red", "A", "N/A", "", none⟩], [(10, 10)],
    true, 1, 1, []⟩

/-- Witness for claim C9 (amended) at the concrete plan of the
counterexample. -/
theorem bounds_cover_markers_witness :
    createMapWithRoute geoC9 "D" planC9 = some outC9
    ∧ (outC9.allLocations = outC9.markers.map (fun m => m.coords)
      ∧ outC9.allLocations.all (fun p => inBBoxB p outC9.allLocations) = true
      ∧ (outC9.boundsFitApplied = false ↔ outC9.markers = [])
      ∧ anchorCoords geoC9 "D" planC9 = some outC9.center) :=
  ⟨by decide, bounds_cover_markers geoC9 "D" planC9 outC9 (by decide)⟩
